import Mathlib

set_option autoImplicit false

/-!
Shallow embedding of src/regions/core/core.py: the region type hierarchy,
the constrained-attribute framework, the linked annulus attributes, the
compound-region construction triggered by the boolean algebra operators,
mask-mode validation, and the restricted metadata containers.

Python errors are modelled as returned error messages: a setter returns the
resulting state paired with an optional error message (the state equals the
prior state exactly when an error is reported), and fallible functions
return Except String.
-/

/-- Universe of Python values fed to the constrained-attribute setters of
core.py. A PixCoord carries its isscalar flag and the ndim of its x data;
a SkyCoord carries isscalar and ndim; a Quantity carries isscalar; num is a
plain Python/numpy scalar number (modelled on the integers); arr is a bare
ndarray of the given ndim. -/
inductive PyVal where
  | pix (isscalar : Bool) (xndim : Nat)
  | sky (isscalar : Bool) (ndim : Nat)
  | quantity (isscalar : Bool)
  | num (n : Int)
  | arr (ndim : Nat)
  deriving DecidableEq

/-- np.isscalar as it behaves on the modelled universe: true exactly for
plain scalar numbers (PixCoord, SkyCoord and Quantity instances, and bare
ndarrays, are not numpy scalars). -/
def pyIsScalar : PyVal → Bool
  | .num _ => true
  | _ => false

/-- isinstance(value, PixCoord) and value.isscalar, the check used by
ScalarPix._validate and AnnulusCenterPix.__set__. -/
def isPixCoordScalar : PyVal → Bool
  | .pix true _ => true
  | _ => false

/-- isinstance(value, Quantity) and value.isscalar, the check used by
QuantityLength._validate and AnnulusAngle.__set__. -/
def isQuantityScalar : PyVal → Bool
  | .quantity true => true
  | _ => false

/-- isinstance(value, PixCoord) and not value.isscalar and value.x.ndim 1,
the check used by OneDPix._validate. -/
def isPixCoord1D : PyVal → Bool
  | .pix false 1 => true
  | _ => false

/-- isinstance(value, SkyCoord) and value.isscalar, the check used by
ScalarSky._validate. -/
def isSkyCoordScalar : PyVal → Bool
  | .sky true _ => true
  | _ => false

/-- isinstance(value, SkyCoord) and value.ndim 1, the check used by
OneDSky._validate. -/
def isSkyCoord1D : PyVal → Bool
  | .sky _ 1 => true
  | _ => false

/-- The six RegionAttr specializations of core.py, distinguished only by
their _validate predicate. -/
inductive AttrVariant where
  | scalarPix
  | oneDPix
  | scalarSky
  | oneDSky
  | scalarLength
  | quantityLength
  deriving DecidableEq

/-- The _validate method of each RegionAttr subclass, transcribed from
core.py: the returned message is the ValueError text raised on failure,
none meaning the value is accepted. -/
def attrValidate (variant : AttrVariant) (name : String) (value : PyVal) : Option String :=
  match variant with
  | .scalarPix =>
      if isPixCoordScalar value then none
      else some ("The " ++ name ++ " must be a 0D PixCoord object")
  | .oneDPix =>
      if isPixCoord1D value then none
      else some ("The " ++ name ++ " must be a 1D PixCoord object")
  | .scalarSky =>
      if isSkyCoordScalar value then none
      else some ("The " ++ name ++ " must be a 0D SkyCoord object")
  | .oneDSky =>
      if isSkyCoord1D value then none
      else some ("The " ++ name ++ " must be a 1D SkyCoord object")
  | .scalarLength =>
      if pyIsScalar value then none
      else some ("The " ++ name ++ " must be a scalar numpy/python number")
  | .quantityLength =>
      if isQuantityScalar value then none
      else some ("The " ++ name ++ " must be a scalar astropy Quantity object")

/-- RegionAttr.__get__: the per-instance storage holds the last successfully
set value; a never-set field reads as the unset sentinel (None). -/
def regionAttrGet (stored : Option PyVal) : Option PyVal :=
  stored

/-- RegionAttr.__set__: validate, then store. The result pairs the stored
slot after the call with the error message raised, if any; on error the
slot is the prior one. -/
def regionAttrSet (variant : AttrVariant) (name : String) (stored : Option PyVal)
    (value : PyVal) : Option PyVal × Option String :=
  match attrValidate variant name value with
  | some msg => (stored, some msg)
  | none => (some value, none)

/-- The numeric length fields of a fully constructed annulus-like compound:
inner is the named field of region1, outer the same field of region2
(both already hold scalar numbers once construction finished). -/
structure AnnulusLengths where
  inner : Int
  outer : Int
  deriving DecidableEq

/-- AnnulusInnerScalarLength.__set__, transcribed from core.py: a
non-scalar value is rejected; a scalar value is rejected exactly when the
current outer value is strictly less than it, and otherwise stored into
region1's field only. -/
def annulusInnerScalarSet (name : String) (st : AnnulusLengths) (value : PyVal) :
    AnnulusLengths × Option String :=
  match value with
  | .num n =>
      if st.outer < n then
        (st, some ("The inner " ++ name ++ " must be less than the outer " ++ name))
      else
        ({ st with inner := n }, none)
  | _ => (st, some ("The inner " ++ name ++ " must be a scalar numpy/python number"))

/-- AnnulusOuterScalarLength.__set__, transcribed from core.py: a
non-scalar value is rejected; a scalar value is rejected exactly when the
current inner value is strictly greater than it, and otherwise stored into
region2's field only. The rejection text repeats the word outer, as the
source does. -/
def annulusOuterScalarSet (name : String) (st : AnnulusLengths) (value : PyVal) :
    AnnulusLengths × Option String :=
  match value with
  | .num n =>
      if st.inner > n then
        (st, some ("The outer " ++ name ++ " must be greater than the outer " ++ name))
      else
        ({ st with outer := n }, none)
  | _ => (st, some ("The outer " ++ name ++ " must be a scalar numpy/python number"))

/-- AnnulusInnerScalarLength.__get__ reads region1's field. -/
def annulusInnerScalarGet (st : AnnulusLengths) : Int :=
  st.inner

/-- AnnulusOuterScalarLength.__get__ reads region2's field. -/
def annulusOuterScalarGet (st : AnnulusLengths) : Int :=
  st.outer

/-- A conditional rejection message equal to some msg forces msg to be the
rejection text. -/
theorem if_none_some {p : Bool} {m msg : String}
    (h : (if p then none else some m) = some msg) : msg = m := by
  cases p <;> simp_all

/-- C6: for each of the six constrained-attribute variants, a value failing
the variant's predicate is rejected with a message naming the field and the
stored slot is unchanged; an accepted value is stored; reading returns the
stored slot (the last successfully set value, or the unset sentinel). -/
theorem c6_region_attr (variant : AttrVariant) (name : String) (stored : Option PyVal)
    (value : PyVal) :
    (∀ msg, attrValidate variant name value = some msg →
      regionAttrSet variant name stored value = (stored, some msg)
      ∧ ∃ s, msg = "The " ++ name ++ s)
    ∧ (attrValidate variant name value = none →
      regionAttrSet variant name stored value = (some value, none))
    ∧ regionAttrGet stored = stored := by
  refine ⟨fun msg hmsg => ⟨?_, ?_⟩, fun hok => ?_, rfl⟩
  · simp [regionAttrSet, hmsg]
  · cases variant <;>
      simp only [attrValidate] at hmsg <;>
      exact ⟨_, if_none_some hmsg⟩
  · simp [regionAttrSet, hok]

/-- Witness for c6_region_attr at a concrete rejected and a concrete
accepted input of the scalar-pixel variant. -/
theorem c6_region_attr_witness :
    (regionAttrSet .scalarPix "center" none (.num 3)
        = (none, some "The center must be a 0D PixCoord object")
      ∧ ∃ s, "The center must be a 0D PixCoord object" = "The " ++ "center" ++ s)
    ∧ regionAttrSet .scalarPix "center" none (.pix true 0) = (some (.pix true 0), none) :=
  ⟨(c6_region_attr .scalarPix "center" none (.num 3)).1 _ rfl,
   (c6_region_attr .scalarPix "center" none (.pix true 0)).2.1 rfl⟩

/-- C1 counterexample: on an annulus-like compound with inner 3 and outer 5,
setting the inner length exactly equal to the outer (5) does not raise:
the source check rejects only when outer is strictly below the new value,
so the write succeeds and mutates inner; symmetrically, setting the outer
length exactly equal to the inner (3) succeeds and mutates outer. This
contradicts the claim that a value not strictly inside the bound
(equality included) raises and leaves the field unchanged. -/
theorem c1_equality_accepted_counterexample :
    annulusInnerScalarSet "radius" ⟨3, 5⟩ (.num 5) = (⟨5, 5⟩, none)
    ∧ annulusOuterScalarSet "radius" ⟨3, 5⟩ (.num 3) = (⟨3, 3⟩, none) :=
  ⟨rfl, rfl⟩

/-- C1 amended: setting the inner length to a scalar value strictly greater
than the outer length raises the ordering error and leaves the state
unchanged, while any scalar value less than or equal to the outer (equality
included) is accepted and mutates only the inner field; symmetrically,
setting the outer length to a scalar value strictly less than the inner
raises and leaves the state unchanged, while any value greater than or
equal to the inner is accepted and mutates only the outer field. -/
theorem c1_annulus_order (name : String) (st : AnnulusLengths) (n : Int) :
    (st.outer < n →
      annulusInnerScalarSet name st (.num n)
        = (st, some ("The inner " ++ name ++ " must be less than the outer " ++ name)))
    ∧ (n ≤ st.outer →
      annulusInnerScalarSet name st (.num n) = ({ st with inner := n }, none))
    ∧ (n < st.inner →
      annulusOuterScalarSet name st (.num n)
        = (st, some ("The outer " ++ name ++ " must be greater than the outer " ++ name)))
    ∧ (st.inner ≤ n →
      annulusOuterScalarSet name st (.num n) = ({ st with outer := n }, none)) := by
  refine ⟨fun h => ?_, fun h => ?_, fun h => ?_, fun h => ?_⟩
  · simp [annulusInnerScalarSet, h]
  · simp [annulusInnerScalarSet, not_lt.mpr h]
  · simp [annulusOuterScalarSet, h]
  · simp [annulusOuterScalarSet, not_lt.mpr h]

/-- Witness for c1_annulus_order at the concrete inputs of the claim:
inner 3, outer 5; setting inner to 6 is rejected, setting inner to 4 is
accepted, setting outer to 2 is rejected, setting outer to 7 is
accepted. -/
theorem c1_annulus_order_witness :
    annulusInnerScalarSet "radius" ⟨3, 5⟩ (.num 6)
      = (⟨3, 5⟩, some ("The inner " ++ "radius" ++ " must be less than the outer " ++ "radius"))
    ∧ annulusInnerScalarSet "radius" ⟨3, 5⟩ (.num 4) = (⟨4, 5⟩, none)
    ∧ annulusOuterScalarSet "radius" ⟨3, 5⟩ (.num 2)
      = (⟨3, 5⟩, some ("The outer " ++ "radius" ++ " must be greater than the outer " ++ "radius"))
    ∧ annulusOuterScalarSet "radius" ⟨3, 5⟩ (.num 7) = (⟨3, 7⟩, none) :=
  ⟨(c1_annulus_order "radius" ⟨3, 5⟩ 6).1 (by decide),
   (c1_annulus_order "radius" ⟨3, 5⟩ 4).2.1 (by decide),
   (c1_annulus_order "radius" ⟨3, 5⟩ 2).2.2.1 (by decide),
   (c1_annulus_order "radius" ⟨3, 5⟩ 7).2.2.2 (by decide)⟩

/-- The per-operand attribute slots of an annulus-like compound that are
shared between its two operands: each operand has a center and an angle
slot, stored through its own constrained attributes. -/
structure AnnulusPair where
  center1 : Option PyVal
  center2 : Option PyVal
  angle1 : Option PyVal
  angle2 : Option PyVal
  deriving DecidableEq

/-- AnnulusCenterPix.__set__, transcribed from core.py: a scalar PixCoord is
stored into the center of both operands; anything else is rejected before
either operand is touched. -/
def annulusCenterPixSet (st : AnnulusPair) (value : PyVal) : AnnulusPair × Option String :=
  if isPixCoordScalar value then
    ({ st with center1 := some value, center2 := some value }, none)
  else
    (st, some "The center must be a 0D PixCoord object")

/-- AnnulusCenterPix.__get__ reads region1's center. -/
def annulusCenterPixGet (st : AnnulusPair) : Option PyVal :=
  st.center1

/-- AnnulusAngle.__set__, transcribed from core.py: a scalar Quantity is
stored into the angle of both operands; anything else is rejected before
either operand is touched. -/
def annulusAngleSet (st : AnnulusPair) (value : PyVal) : AnnulusPair × Option String :=
  if isQuantityScalar value then
    ({ st with angle1 := some value, angle2 := some value }, none)
  else
    (st, some "The angle must be a scalar astropy quantity object")

/-- AnnulusAngle.__get__ reads region1's angle. -/
def annulusAngleGet (st : AnnulusPair) : Option PyVal :=
  st.angle1

/-- C7: writing a valid scalar center (angle) on an annulus-like compound
stores the identical value on both operands; an invalid value is rejected
with neither operand changed; reading returns region1's value. -/
theorem c7_annulus_shared (st : AnnulusPair) (value : PyVal) :
    (isPixCoordScalar value = true →
      annulusCenterPixSet st value
        = ({ st with center1 := some value, center2 := some value }, none))
    ∧ (isPixCoordScalar value = false →
      annulusCenterPixSet st value = (st, some "The center must be a 0D PixCoord object"))
    ∧ (isQuantityScalar value = true →
      annulusAngleSet st value
        = ({ st with angle1 := some value, angle2 := some value }, none))
    ∧ (isQuantityScalar value = false →
      annulusAngleSet st value = (st, some "The angle must be a scalar astropy quantity object"))
    ∧ annulusCenterPixGet st = st.center1
    ∧ annulusAngleGet st = st.angle1 := by
  refine ⟨fun h => ?_, fun h => ?_, fun h => ?_, fun h => ?_, rfl, rfl⟩ <;>
    simp [annulusCenterPixSet, annulusAngleSet, h]

/-- Witness for c7_annulus_shared on a concrete empty pair: a scalar
PixCoord center write succeeds on both slots, a plain number center write
is rejected, a scalar Quantity angle write succeeds on both slots, a plain
number angle write is rejected. -/
theorem c7_annulus_shared_witness :
    annulusCenterPixSet ⟨none, none, none, none⟩ (.pix true 0)
      = (⟨some (.pix true 0), some (.pix true 0), none, none⟩, none)
    ∧ annulusCenterPixSet ⟨none, none, none, none⟩ (.num 1)
      = (⟨none, none, none, none⟩, some "The center must be a 0D PixCoord object")
    ∧ annulusAngleSet ⟨none, none, none, none⟩ (.quantity true)
      = (⟨none, none, some (.quantity true), some (.quantity true)⟩, none)
    ∧ annulusAngleSet ⟨none, none, none, none⟩ (.num 1)
      = (⟨none, none, none, none⟩, some "The angle must be a scalar astropy quantity object") :=
  ⟨(c7_annulus_shared ⟨none, none, none, none⟩ (.pix true 0)).1 rfl,
   (c7_annulus_shared ⟨none, none, none, none⟩ (.num 1)).2.1 rfl,
   (c7_annulus_shared ⟨none, none, none, none⟩ (.quantity true)).2.2.1 rfl,
   (c7_annulus_shared ⟨none, none, none, none⟩ (.num 1)).2.2.2.1 rfl⟩

/-- The operator tags drawn from the operator module: operator.and_,
operator.or_ and operator.xor. -/
inductive BoolOp where
  | andOp
  | orOp
  | xorOp
  deriving DecidableEq

/-- The region hierarchy of core.py as a value type: a concrete pixel
shape, a concrete sky shape (both external collaborators identified by an
id), and the two compound region classes holding two operands and an
operator tag. -/
inductive RegionF where
  | pixShape (id : Nat)
  | skyShape (id : Nat)
  | compoundPix (region1 : RegionF) (region2 : RegionF) (op : BoolOp)
  | compoundSky (region1 : RegionF) (region2 : RegionF) (op : BoolOp)
  deriving DecidableEq

/-- isinstance(r, PixelRegion): concrete pixel shapes and
CompoundPixelRegion values. -/
def isPixelRegion : RegionF → Bool
  | .pixShape _ => true
  | .compoundPix _ _ _ => true
  | _ => false

/-- isinstance(r, SkyRegion): concrete sky shapes and CompoundSkyRegion
values. -/
def isSkyRegion : RegionF → Bool
  | .skyShape _ => true
  | .compoundSky _ _ _ => true
  | _ => false

/-- CompoundRegionPix._validate, transcribed from core.py: region slots of
a compound pixel region accept only PixelRegion values. -/
def compoundRegionPixValidate (name : String) (value : RegionF) : Option String :=
  if isPixelRegion value then none
  else some ("The " ++ name ++ " must be a PixelRegion object")

/-- CompoundRegionSky._validate, transcribed from core.py: region slots of
a compound sky region accept only SkyRegion values. -/
def compoundRegionSkyValidate (name : String) (value : RegionF) : Option String :=
  if isSkyRegion value then none
  else some ("The " ++ name ++ " must be a SkyRegion object")

/-- Modelled from the spec: the CompoundPixelRegion constructor lives in
the missing compound.py; per the spec it stores region1, region2 and the
operator tag, with the two region slots assigned through the
CompoundRegionPix validating attributes defined in core.py, and constructs
nothing when a slot assignment is rejected. -/
def compoundPixelRegionMake (r1 r2 : RegionF) (op : BoolOp) : Except String RegionF :=
  match compoundRegionPixValidate "region1" r1 with
  | some e => .error e
  | none =>
      match compoundRegionPixValidate "region2" r2 with
      | some e => .error e
      | none => .ok (.compoundPix r1 r2 op)

/-- Modelled from the spec: the CompoundSkyRegion constructor lives in the
missing compound.py; per the spec it stores region1, region2 and the
operator tag, with the two region slots assigned through the
CompoundRegionSky validating attributes defined in core.py, and constructs
nothing when a slot assignment is rejected. -/
def compoundSkyRegionMake (r1 r2 : RegionF) (op : BoolOp) : Except String RegionF :=
  match compoundRegionSkyValidate "region1" r1 with
  | some e => .error e
  | none =>
      match compoundRegionSkyValidate "region2" r2 with
      | some e => .error e
      | none => .ok (.compoundSky r1 r2 op)

/-- Region.intersection as dispatched by class: PixelRegion.intersection
builds a CompoundPixelRegion with operator.and_, SkyRegion.intersection a
CompoundSkyRegion with operator.and_. -/
def regionIntersection (a b : RegionF) : Except String RegionF :=
  if isPixelRegion a then compoundPixelRegionMake a b .andOp
  else compoundSkyRegionMake a b .andOp

/-- Region.union as dispatched by class, with operator.or_. -/
def regionUnion (a b : RegionF) : Except String RegionF :=
  if isPixelRegion a then compoundPixelRegionMake a b .orOp
  else compoundSkyRegionMake a b .orOp

/-- Region.symmetric_difference as dispatched by class, with
operator.xor. -/
def regionSymmetricDifference (a b : RegionF) : Except String RegionF :=
  if isPixelRegion a then compoundPixelRegionMake a b .xorOp
  else compoundSkyRegionMake a b .xorOp

/-- Region.__and__, transcribed from core.py: self.intersection(other). -/
def regionAndOperator (a b : RegionF) : Except String RegionF :=
  regionIntersection a b

/-- Region.__or__, transcribed from core.py: self.union(other). -/
def regionOrOperator (a b : RegionF) : Except String RegionF :=
  regionUnion a b

/-- Region.__xor__, transcribed from core.py:
self.symmetric_difference(other). -/
def regionXorOperator (a b : RegionF) : Except String RegionF :=
  regionSymmetricDifference a b

/-- C2: for two regions of the same frame family, union returns the
compound with region1 the receiver, region2 the argument and tag OR;
intersection likewise with AND and symmetric_difference with XOR; and the
three operators are exactly the three operations. -/
theorem c2_region_algebra (a b : RegionF) :
    (isPixelRegion a = true → isPixelRegion b = true →
      regionUnion a b = .ok (.compoundPix a b .orOp)
      ∧ regionIntersection a b = .ok (.compoundPix a b .andOp)
      ∧ regionSymmetricDifference a b = .ok (.compoundPix a b .xorOp))
    ∧ (isSkyRegion a = true → isSkyRegion b = true →
      regionUnion a b = .ok (.compoundSky a b .orOp)
      ∧ regionIntersection a b = .ok (.compoundSky a b .andOp)
      ∧ regionSymmetricDifference a b = .ok (.compoundSky a b .xorOp))
    ∧ regionAndOperator a b = regionIntersection a b
    ∧ regionOrOperator a b = regionUnion a b
    ∧ regionXorOperator a b = regionSymmetricDifference a b := by
  refine ⟨fun ha hb => ?_, fun ha hb => ?_, rfl, rfl, rfl⟩
  · refine ⟨?_, ?_, ?_⟩ <;>
      simp [regionUnion, regionIntersection, regionSymmetricDifference,
        compoundPixelRegionMake, compoundRegionPixValidate, ha, hb]
  · have ha2 : isPixelRegion a = false := by
      cases a <;> simp_all [isPixelRegion, isSkyRegion]
    refine ⟨?_, ?_, ?_⟩ <;>
      simp [regionUnion, regionIntersection, regionSymmetricDifference,
        compoundSkyRegionMake, compoundRegionSkyValidate, ha2, ha, hb]

/-- Witness for c2_region_algebra on two concrete pixel shapes and two
concrete sky shapes. -/
theorem c2_region_algebra_witness :
    (regionUnion (.pixShape 0) (.pixShape 1)
        = .ok (.compoundPix (.pixShape 0) (.pixShape 1) .orOp)
      ∧ regionIntersection (.pixShape 0) (.pixShape 1)
        = .ok (.compoundPix (.pixShape 0) (.pixShape 1) .andOp)
      ∧ regionSymmetricDifference (.pixShape 0) (.pixShape 1)
        = .ok (.compoundPix (.pixShape 0) (.pixShape 1) .xorOp))
    ∧ (regionUnion (.skyShape 0) (.skyShape 1)
        = .ok (.compoundSky (.skyShape 0) (.skyShape 1) .orOp)
      ∧ regionIntersection (.skyShape 0) (.skyShape 1)
        = .ok (.compoundSky (.skyShape 0) (.skyShape 1) .andOp)
      ∧ regionSymmetricDifference (.skyShape 0) (.skyShape 1)
        = .ok (.compoundSky (.skyShape 0) (.skyShape 1) .xorOp)) :=
  ⟨(c2_region_algebra (.pixShape 0) (.pixShape 1)).1 rfl rfl,
   (c2_region_algebra (.skyShape 0) (.skyShape 1)).2.1 rfl rfl⟩

/-- An Except value is a success. -/
def exceptIsOk {ε α : Type} : Except ε α → Bool
  | .ok _ => true
  | .error _ => false

/-- C8: combining two regions of different frame families through any of
the three operations fails (no compound region is constructed), because a
compound pixel region accepts only PixelRegion operands and a compound sky
region only SkyRegion operands. -/
theorem c8_frame_mismatch (a b : RegionF) (h : isPixelRegion a ≠ isPixelRegion b) :
    exceptIsOk (regionIntersection a b) = false
    ∧ exceptIsOk (regionUnion a b) = false
    ∧ exceptIsOk (regionSymmetricDifference a b) = false := by
  have hframes : ∀ r : RegionF, isSkyRegion r = ! isPixelRegion r := by
    intro r; cases r <;> rfl
  cases ha : isPixelRegion a <;> cases hb : isPixelRegion b <;>
    simp_all [regionIntersection, regionUnion, regionSymmetricDifference,
      compoundPixelRegionMake, compoundSkyRegionMake,
      compoundRegionPixValidate, compoundRegionSkyValidate, exceptIsOk]

/-- Witness for c8_frame_mismatch: a concrete pixel shape combined with a
concrete sky shape, in both orders. -/
theorem c8_frame_mismatch_witness :
    (exceptIsOk (regionIntersection (.pixShape 0) (.skyShape 1)) = false
      ∧ exceptIsOk (regionUnion (.pixShape 0) (.skyShape 1)) = false
      ∧ exceptIsOk (regionSymmetricDifference (.pixShape 0) (.skyShape 1)) = false)
    ∧ (exceptIsOk (regionIntersection (.skyShape 1) (.pixShape 0)) = false
      ∧ exceptIsOk (regionUnion (.skyShape 1) (.pixShape 0)) = false
      ∧ exceptIsOk (regionSymmetricDifference (.skyShape 1) (.pixShape 0)) = false) :=
  ⟨c8_frame_mismatch (.pixShape 0) (.skyShape 1) (by decide),
   c8_frame_mismatch (.skyShape 1) (.pixShape 0) (by decide)⟩

/-- The VALID_MASK_MODES set of core.py, as the list of its three
elements (the order only affects the slash-joined error text). -/
def validMaskModes : List String := ["center", "exact", "subpixels"]

/-- The subpixels argument of to_mask: either a Python int or some
non-integer value carrying its printed form. -/
inductive Subpix where
  | intVal (n : Int)
  | nonIntVal (text : String)
  deriving DecidableEq

/-- Printed form of a subpixels value, used in the error text. -/
def subpixStr : Subpix → String
  | .intVal n => toString n
  | .nonIntVal t => t

/-- PixelRegion._validate_mode, transcribed from core.py: an unknown mode
is rejected naming the value and the valid set; when the mode is subpixels
the subpixels argument must be an int strictly greater than zero; for the
other two modes subpixels is never examined. -/
def validateMode (mode : String) (subpixels : Subpix) : Option String :=
  if mode ∉ validMaskModes then
    some ("Invalid mask mode: " ++ mode ++ " (should be one of "
      ++ String.intercalate "/" validMaskModes ++ ")")
  else if mode = "subpixels" then
    match subpixels with
    | .intVal n =>
        if n ≤ 0 then
          some ("Invalid subpixels value: " ++ subpixStr subpixels
            ++ " (should be a strictly positive integer)")
        else none
    | .nonIntVal _ =>
        some ("Invalid subpixels value: " ++ subpixStr subpixels
          ++ " (should be a strictly positive integer)")
  else none

/-- C5: mask-mode validation succeeds exactly when the mode is one of
center, exact, subpixels and, for the subpixels mode only, the subpixels
argument is a strictly positive integer; an unknown mode is rejected with
a message naming the offending value and the valid set; for center and
exact the subpixels argument is ignored entirely. -/
theorem c5_validate_mode (mode : String) (sp : Subpix) :
    (validateMode mode sp = none ↔
      (mode ∈ validMaskModes ∧ (mode = "subpixels" → ∃ n, sp = .intVal n ∧ 0 < n)))
    ∧ (mode ∉ validMaskModes →
      validateMode mode sp
        = some ("Invalid mask mode: " ++ mode ++ " (should be one of "
            ++ String.intercalate "/" validMaskModes ++ ")"))
    ∧ ((mode = "center" ∨ mode = "exact") → validateMode mode sp = none) := by
  refine ⟨?_, fun hm => ?_, fun hce => ?_⟩
  · by_cases hm : mode ∈ validMaskModes
    · by_cases hs : mode = "subpixels"
      · subst hs
        cases sp with
        | intVal n =>
            by_cases hn : n ≤ 0
            · simp only [validateMode, hm, not_true_eq_false, if_false]
              simp [hn]
            · simp only [validateMode, hm, not_true_eq_false, if_false]
              simp [hn]
              omega
        | nonIntVal t =>
            simp [validateMode, hm]
      · cases sp <;> simp [validateMode, hm, hs]
    · simp [validateMode, hm]
  · simp [validateMode, hm]
  · have hmem : mode ∈ validMaskModes := by
      rcases hce with h | h <;> subst h <;> decide
    have hs : ¬ mode = "subpixels" := by
      rcases hce with h | h <;> subst h <;> decide
    cases sp <;> simp [validateMode, hmem, hs]

/-- Witness for c5_validate_mode: subpixels mode with values 0 and 4, the
center mode ignoring a zero subpixels value, and a rejected triangle
mode. -/
theorem c5_validate_mode_witness :
    validateMode "subpixels" (.intVal 0) ≠ none
    ∧ validateMode "subpixels" (.intVal 4) = none
    ∧ validateMode "center" (.intVal 0) = none
    ∧ validateMode "triangle" (.intVal 4)
      = some ("Invalid mask mode: " ++ "triangle" ++ " (should be one of "
          ++ String.intercalate "/" validMaskModes ++ ")") := by
  refine ⟨?_, ?_, ?_, ?_⟩
  · intro h
    have := ((c5_validate_mode "subpixels" (.intVal 0)).1.mp h).2 rfl
    rcases this with ⟨n, hn, hpos⟩
    cases hn
    exact absurd hpos (by decide)
  · exact (c5_validate_mode "subpixels" (.intVal 4)).1.mpr
      ⟨by decide, fun _ => ⟨4, rfl, by decide⟩⟩
  · exact (c5_validate_mode "center" (.intVal 0)).2.2 (Or.inl rfl)
  · exact (c5_validate_mode "triangle" (.intVal 4)).2.1 (by decide)

/-- A pixel coordinate value passed to contains: its isscalar flag and a
pair of data payloads (for a scalar, the x and y values). -/
structure PixCoord where
  isscalar : Bool
  x : Int
  y : Int
  deriving DecidableEq

/-- The result of a shape's contains: a single bool for a scalar query or
a bool array for a sequence query. -/
inductive ContainsVal where
  | bool (b : Bool)
  | boolArr (bs : List Bool)
  deriving DecidableEq

/-- Modelled from the spec: the printed form of a PixCoord (its __repr__
lives in the missing pixcoord.py); only used inside the must-be-scalar
error text. -/
def pixCoordStr (c : PixCoord) : String :=
  "PixCoord(x=" ++ toString c.x ++ ", y=" ++ toString c.y ++ ")"

/-- A concrete pixel-frame shape as the abstract PixelRegion contract sees
it: an external collaborator supplying the contains test (which may itself
reject an input). -/
structure PixelShapeM where
  contains : PixCoord → Except String ContainsVal

/-- PixelRegion.__contains__, transcribed from core.py: a non-scalar
coordinate raises naming the coordinate, a scalar one is handed to the
shape's contains. -/
def pixelRegionMemOperator (r : PixelShapeM) (coord : PixCoord) : Except String ContainsVal :=
  if coord.isscalar = false then
    .error ("coord must be scalar. coord=" ++ pixCoordStr coord)
  else r.contains coord

/-- C10: the membership operator on a pixel region rejects every
non-scalar coordinate with a ValueError naming the coordinate, and on a
scalar coordinate returns exactly what the region's contains returns. -/
theorem c10_mem_operator (r : PixelShapeM) (coord : PixCoord) :
    (coord.isscalar = false →
      pixelRegionMemOperator r coord
        = .error ("coord must be scalar. coord=" ++ pixCoordStr coord))
    ∧ (coord.isscalar = true →
      pixelRegionMemOperator r coord = r.contains coord) := by
  refine ⟨fun h => ?_, fun h => ?_⟩ <;> simp [pixelRegionMemOperator, h]

/-- A shape used as witness material: its contains accepts every input and
reports true. -/
def demoPixShape : PixelShapeM :=
  ⟨fun _ => .ok (.bool true)⟩

/-- Witness for c10_mem_operator: a non-scalar coordinate is rejected, a
scalar one is delegated. -/
theorem c10_mem_operator_witness :
    pixelRegionMemOperator demoPixShape ⟨false, 1, 2⟩
      = .error ("coord must be scalar. coord=" ++ pixCoordStr ⟨false, 1, 2⟩)
    ∧ pixelRegionMemOperator demoPixShape ⟨true, 1, 2⟩
      = demoPixShape.contains ⟨true, 1, 2⟩ :=
  ⟨(c10_mem_operator demoPixShape ⟨false, 1, 2⟩).1 rfl,
   (c10_mem_operator demoPixShape ⟨true, 1, 2⟩).2 rfl⟩

/-- A sky coordinate value: its isscalar flag and a pair of data
payloads. -/
structure SkyCoordM where
  isscalar : Bool
  ra : Int
  dec : Int
  deriving DecidableEq

/-- The transform collaborator. Modelled from the spec: its fromSky field
is PixCoord.from_sky of the missing pixcoord.py, converting a sky
coordinate to the matching pixel coordinate under this transform. -/
structure Wcs where
  fromSky : SkyCoordM → PixCoord

/-- A concrete sky-frame shape as the abstract SkyRegion contract sees it:
an external collaborator supplying to_pixel. -/
structure SkyShapeM where
  to_pixel : Wcs → PixelShapeM

/-- SkyRegion.contains, transcribed from core.py: derive the pixel region
with to_pixel, convert the sky coordinate with the same transform, and
hand the result to the pixel region's contains; no other step occurs, in
particular no scalar check on the input. -/
def skyRegionContains (s : SkyShapeM) (skycoord : SkyCoordM) (wcs : Wcs) :
    Except String ContainsVal :=
  (s.to_pixel wcs).contains (wcs.fromSky skycoord)

/-- C4: a sky region's contains is exactly the contains of the pixel
region freshly derived with the given transform, evaluated at the pixel
equivalent of the sky point under that same transform. -/
theorem c4_sky_contains_delegates (s : SkyShapeM) (p : SkyCoordM) (w : Wcs) :
    skyRegionContains s p w = (s.to_pixel w).contains (w.fromSky p) :=
  rfl

/-- A sky shape over demoPixShape, witness material for the sky contains
claims. -/
def demoSkyShape : SkyShapeM :=
  ⟨fun _ => demoPixShape⟩

/-- A transform carrying sky coordinates to pixel coordinates of the same
scalar-ness, witness material. -/
def demoWcs : Wcs :=
  ⟨fun sc => ⟨sc.isscalar, sc.ra, sc.dec⟩⟩

/-- C3 counterexample: a non-scalar sky coordinate handed to a sky
region's contains is not rejected: the call succeeds and returns the
delegated result, against the claim that a sequence input fails with a
must-be-scalar ValueError. -/
theorem c3_no_scalar_check_counterexample :
    SkyCoordM.isscalar ⟨false, 10, 20⟩ = false
    ∧ skyRegionContains demoSkyShape ⟨false, 10, 20⟩ demoWcs = .ok (.bool true) :=
  ⟨rfl, rfl⟩

/-- C3 amended: SkyRegion.contains performs no scalar check at all: even a
non-scalar sky coordinate is transformed and delegated to the derived
pixel region's contains, whose result (success or failure) is returned
unchanged. -/
theorem c3_sky_contains_no_scalar_check (s : SkyShapeM) (w : Wcs) (p : SkyCoordM)
    (_h : p.isscalar = false) :
    skyRegionContains s p w = (s.to_pixel w).contains (w.fromSky p) :=
  rfl

/-- Witness for c3_sky_contains_no_scalar_check at the concrete non-scalar
coordinate of the counterexample. -/
theorem c3_sky_contains_no_scalar_check_witness :
    skyRegionContains demoSkyShape ⟨false, 10, 20⟩ demoWcs
      = (demoSkyShape.to_pixel demoWcs).contains (demoWcs.fromSky ⟨false, 10, 20⟩) :=
  c3_sky_contains_no_scalar_check demoSkyShape demoWcs ⟨false, 10, 20⟩ rfl

/-- The fixed key vocabulary of RegionMeta, from core.py. -/
def metaValidKeys : List String :=
  ["label", "symbol", "include", "frame", "range", "veltype",
   "restfreq", "tag", "comment", "coord", "line", "name",
   "select", "highlite", "fixed", "edit", "move", "rotate",
   "delete", "source", "background", "corr", "type"]

/-- The alias table of RegionMeta, from core.py. -/
def metaKeyMapping : List (String × String) :=
  [("point", "symbol"), ("text", "label")]

/-- The fixed key vocabulary of RegionVisual, from core.py. -/
def visualValidKeys : List String :=
  ["color", "dash", "font", "dashlist", "symsize", "symthick",
   "fontsize", "fontstyle", "usetex", "labelpos", "labeloff",
   "linewidth", "linestyle", "fill", "line"]

/-- The alias table of RegionVisual, from core.py. -/
def visualKeyMapping : List (String × String) :=
  [("width", "linewidth")]

/-- key_mapping.get(key, key): resolve a key through an alias table,
falling back to the key itself. -/
def keyAlias (mapping : List (String × String)) (k : String) : String :=
  (mapping.lookup k).getD k

/-- dict.__setitem__ on an insertion-ordered association list: replace in
place when the key is present, append otherwise. -/
def assocSet {α : Type} (d : List (String × α)) (k : String) (v : α) : List (String × α) :=
  match d with
  | [] => [(k, v)]
  | (k0, v0) :: rest => if k0 = k then (k, v) :: rest else (k0, v0) :: assocSet rest k v

/-- RegionMeta.__setitem__, transcribed from core.py: resolve the alias,
store when the resolved key is in the vocabulary, otherwise report the
KeyError text with the container untouched. -/
def regionMetaSetItem {α : Type} (d : List (String × α)) (key : String) (v : α) :
    List (String × α) × Option String :=
  let k := keyAlias metaKeyMapping key
  if k ∈ metaValidKeys then (assocSet d k v, none)
  else (d, some (k ++ " is not a valid meta key for region."))

/-- RegionMeta.__getitem__, transcribed from core.py: resolve the alias,
then a plain dict lookup, whose failure is the KeyError for a valid but
absent key. -/
def regionMetaGetItem {α : Type} (d : List (String × α)) (item : String) : Except String α :=
  match d.lookup (keyAlias metaKeyMapping item) with
  | some v => .ok v
  | none => .error (keyAlias metaKeyMapping item)

/-- RegionVisual.__setitem__, transcribed from core.py. -/
def regionVisualSetItem {α : Type} (d : List (String × α)) (key : String) (v : α) :
    List (String × α) × Option String :=
  let k := keyAlias visualKeyMapping key
  if k ∈ visualValidKeys then (assocSet d k v, none)
  else (d, some (k ++ " is not a valid visual meta key for region."))

/-- RegionVisual.__getitem__, transcribed from core.py. -/
def regionVisualGetItem {α : Type} (d : List (String × α)) (item : String) : Except String α :=
  match d.lookup (keyAlias visualKeyMapping item) with
  | some v => .ok v
  | none => .error (keyAlias visualKeyMapping item)

/-- A key whose meta alias resolution lands outside the vocabulary is left
unchanged by the alias table, since both alias targets are in the
vocabulary. -/
theorem metaAliasInvalidFixed {k : String}
    (h : keyAlias metaKeyMapping k ∉ metaValidKeys) : keyAlias metaKeyMapping k = k := by
  by_cases h1 : k = "point"
  · subst h1; exact absurd (show keyAlias metaKeyMapping "point" ∈ metaValidKeys by decide) h
  · by_cases h2 : k = "text"
    · subst h2; exact absurd (show keyAlias metaKeyMapping "text" ∈ metaValidKeys by decide) h
    · have h1b : (k == "point") = false := beq_eq_false_iff_ne.mpr h1
      have h2b : (k == "text") = false := beq_eq_false_iff_ne.mpr h2
      simp [keyAlias, metaKeyMapping, List.lookup, h1b, h2b]

/-- A key whose visual alias resolution lands outside the vocabulary is
left unchanged by the alias table. -/
theorem visualAliasInvalidFixed {k : String}
    (h : keyAlias visualKeyMapping k ∉ visualValidKeys) : keyAlias visualKeyMapping k = k := by
  by_cases h1 : k = "width"
  · subst h1; exact absurd (show keyAlias visualKeyMapping "width" ∈ visualValidKeys by decide) h
  · have h1b : (k == "width") = false := beq_eq_false_iff_ne.mpr h1
    simp [keyAlias, visualKeyMapping, List.lookup, h1b]

/-- Meta alias resolution is idempotent: the alias targets are not
themselves alias sources. -/
theorem metaAliasIdem (k : String) :
    keyAlias metaKeyMapping (keyAlias metaKeyMapping k) = keyAlias metaKeyMapping k := by
  by_cases h1 : k = "point"
  · subst h1; decide
  · by_cases h2 : k = "text"
    · subst h2; decide
    · have h1b : (k == "point") = false := beq_eq_false_iff_ne.mpr h1
      have h2b : (k == "text") = false := beq_eq_false_iff_ne.mpr h2
      have hk : keyAlias metaKeyMapping k = k := by
        simp [keyAlias, metaKeyMapping, List.lookup, h1b, h2b]
      rw [hk]
      exact hk

/-- Visual alias resolution is idempotent. -/
theorem visualAliasIdem (k : String) :
    keyAlias visualKeyMapping (keyAlias visualKeyMapping k) = keyAlias visualKeyMapping k := by
  by_cases h1 : k = "width"
  · subst h1; decide
  · have h1b : (k == "width") = false := beq_eq_false_iff_ne.mpr h1
    have hk : keyAlias visualKeyMapping k = k := by
      simp [keyAlias, visualKeyMapping, List.lookup, h1b]
    rw [hk]
    exact hk

/-- C9: writes on the metadata containers resolve the key through the
alias table before checking the vocabulary, so writing point equals
writing symbol on meta and writing width equals writing linewidth on
visual; a key invalid after aliasing is rejected with a KeyError text
naming exactly the rejected key and the container unchanged; reads apply
the same alias resolution before lookup. -/
theorem c9_metadata_containers {α : Type} (d : List (String × α)) (v : α) (k : String) :
    regionMetaSetItem d "point" v = regionMetaSetItem d "symbol" v
    ∧ regionVisualSetItem d "width" v = regionVisualSetItem d "linewidth" v
    ∧ (keyAlias metaKeyMapping k ∉ metaValidKeys →
        regionMetaSetItem d k v = (d, some (k ++ " is not a valid meta key for region.")))
    ∧ (keyAlias visualKeyMapping k ∉ visualValidKeys →
        regionVisualSetItem d k v
          = (d, some (k ++ " is not a valid visual meta key for region.")))
    ∧ regionMetaGetItem d k = regionMetaGetItem d (keyAlias metaKeyMapping k)
    ∧ regionVisualGetItem d k = regionVisualGetItem d (keyAlias visualKeyMapping k) := by
  refine ⟨rfl, rfl, fun h => ?_, fun h => ?_, ?_, ?_⟩
  · have hfix := metaAliasInvalidFixed h
    have hmem : k ∉ metaValidKeys := hfix ▸ h
    simp [regionMetaSetItem, hfix, hmem]
  · have hfix := visualAliasInvalidFixed h
    have hmem : k ∉ visualValidKeys := hfix ▸ h
    simp [regionVisualSetItem, hfix, hmem]
  · rw [regionMetaGetItem, regionMetaGetItem, metaAliasIdem]
  · rw [regionVisualGetItem, regionVisualGetItem, visualAliasIdem]

/-- Witness for c9_metadata_containers: the nonsense key is rejected on
the empty meta container with the message naming it, and reading the
point key equals reading the symbol key. -/
theorem c9_metadata_containers_witness :
    regionMetaSetItem ([] : List (String × Int)) "nonsense" 1
      = ([], some ("nonsense" ++ " is not a valid meta key for region."))
    ∧ regionMetaGetItem ([("symbol", (2 : Int))]) "point"
      = regionMetaGetItem ([("symbol", (2 : Int))]) (keyAlias metaKeyMapping "point") :=
  ⟨(c9_metadata_containers ([] : List (String × Int)) 1 "nonsense").2.2.1 (by decide),
   (c9_metadata_containers ([("symbol", (2 : Int))]) 2 "point").2.2.2.2.1⟩
